import Mathlib

/-!
Shallow embedding of the Alpyne data layer (alpyne/outputs.py, alpyne/data.py,
alpyne/data/spaces.py, alpyne/spaces.py, alpyne/utils.py, alpyne/errors.py).
Python floats are modelled as exact rationals; Python exceptions as `Except`.
-/

namespace Alpyne

/-- The kinds of Python exceptions raised by the embedded code paths. -/
inductive PyErr where
  | attributeError
  | typeError
  | notImplementedError
  | stopIteration
deriving DecidableEq, Repr

/-! ## Unit system (alpyne/outputs.py)

Each AnyLogic unit family is a Python `Enum`; members carry attributes set in
`__init__`.  The numeric families (Amount/Time/Length/Angle) store a
`conversion_factor`; AreaUnits stores `si` (squared length modifier) and
`length_unit`; the rate/velocity-shaped families store component units. -/

inductive AmountUnits where
  | LITER | OIL_BARREL | CUBIC_METER | KILOGRAM | TON
deriving DecidableEq, Fintype, Repr

/-- `AmountUnits` member attribute `conversion_factor` (outputs.py lines 132-136). -/
def AmountUnits.conversion_factor : AmountUnits → ℚ
  | .LITER => 0.001
  | .OIL_BARREL => 0.158987295
  | .CUBIC_METER => 1.0
  | .KILOGRAM => 1.0
  | .TON => 1000.0

/-- `AmountUnits.modifier` (outputs.py lines 142-143). -/
def AmountUnits.modifier (self units : AmountUnits) : ℚ :=
  self.conversion_factor / units.conversion_factor

/-- `AmountUnits.convert_to` (outputs.py lines 145-146). -/
def AmountUnits.convert_to (self : AmountUnits) (this_amount : ℚ) (new_units : AmountUnits) : ℚ :=
  this_amount * self.modifier new_units

inductive TimeUnits where
  | MILLISECOND | SECOND | MINUTE | HOUR | DAY | WEEK | MONTH | YEAR
deriving DecidableEq, Fintype, Repr

/-- `TimeUnits` member attribute `conversion_factor` (outputs.py lines 150-157). -/
def TimeUnits.conversion_factor : TimeUnits → ℚ
  | .MILLISECOND => 0.001
  | .SECOND => 1.0
  | .MINUTE => 60.0
  | .HOUR => 3600.0
  | .DAY => 86400.0
  | .WEEK => 604800.0
  | .MONTH => 2592000.0
  | .YEAR => 3.1536e7

/-- `TimeUnits.modifier` (outputs.py lines 163-164). -/
def TimeUnits.modifier (self units : TimeUnits) : ℚ :=
  self.conversion_factor / units.conversion_factor

/-- `TimeUnits.convert_to` (outputs.py lines 166-167). -/
def TimeUnits.convert_to (self : TimeUnits) (this_amount : ℚ) (new_units : TimeUnits) : ℚ :=
  this_amount * self.modifier new_units

inductive LengthUnits where
  | MILLIMETER | CENTIMETER | METER | KILOMETER | INCH | FOOT | YARD | MILE | NAUTICAL_MILE
deriving DecidableEq, Fintype, Repr

/-- `LengthUnits` member attribute `conversion_factor` (outputs.py lines 171-179). -/
def LengthUnits.conversion_factor : LengthUnits → ℚ
  | .MILLIMETER => 0.001
  | .CENTIMETER => 0.01
  | .METER => 1.0
  | .KILOMETER => 1000.0
  | .INCH => 0.0254
  | .FOOT => 0.3048
  | .YARD => 0.9144
  | .MILE => 1609.344
  | .NAUTICAL_MILE => 1853.184

/-- `LengthUnits.modifier` (outputs.py lines 185-186). -/
def LengthUnits.modifier (self units : LengthUnits) : ℚ :=
  self.conversion_factor / units.conversion_factor

/-- `LengthUnits.convert_to` (outputs.py lines 188-189). -/
def LengthUnits.convert_to (self : LengthUnits) (this_amount : ℚ) (new_units : LengthUnits) : ℚ :=
  this_amount * self.modifier new_units

inductive AngleUnits where
  | TURN | RADIAN | DEGREE
deriving DecidableEq, Fintype, Repr

/-- `AngleUnits` member attribute `conversion_factor` (outputs.py lines 193-195). -/
def AngleUnits.conversion_factor : AngleUnits → ℚ
  | .TURN => 6.283185307179586
  | .RADIAN => 1.0
  | .DEGREE => 0.017453292519943295

/-- `AngleUnits.modifier` (outputs.py lines 201-202). -/
def AngleUnits.modifier (self units : AngleUnits) : ℚ :=
  self.conversion_factor / units.conversion_factor

/-- `AngleUnits.convert_to` (outputs.py lines 204-205). -/
def AngleUnits.convert_to (self : AngleUnits) (this_amount : ℚ) (new_units : AngleUnits) : ℚ :=
  this_amount * self.modifier new_units

inductive AreaUnits where
  | SQ_MILLIMETER | SQ_CENTIMETER | SQ_METER | SQ_KILOMETER | SQ_INCH | SQ_FOOT
  | SQ_YARD | SQ_MILE | SQ_NAUTICAL_MILE
deriving DecidableEq, Fintype, Repr

/-- `AreaUnits` member attribute `length_unit` (outputs.py lines 209-217). -/
def AreaUnits.length_unit : AreaUnits → LengthUnits
  | .SQ_MILLIMETER => .MILLIMETER
  | .SQ_CENTIMETER => .CENTIMETER
  | .SQ_METER => .METER
  | .SQ_KILOMETER => .KILOMETER
  | .SQ_INCH => .INCH
  | .SQ_FOOT => .FOOT
  | .SQ_YARD => .YARD
  | .SQ_MILE => .MILE
  | .SQ_NAUTICAL_MILE => .NAUTICAL_MILE

/-- `AreaUnits` member attribute `si`, set in `__init__` as
`length_unit.modifier(LengthUnits.METER) ** 2` (outputs.py line 221). -/
def AreaUnits.si (self : AreaUnits) : ℚ :=
  self.length_unit.modifier LengthUnits.METER ^ 2

/-- `AreaUnits.modifier` (outputs.py lines 224-225). -/
def AreaUnits.modifier (self units : AreaUnits) : ℚ :=
  self.si / units.si

/-- `AreaUnits.convert_to` (outputs.py lines 227-228). -/
def AreaUnits.convert_to (self : AreaUnits) (this_amount : ℚ) (new_units : AreaUnits) : ℚ :=
  this_amount * self.modifier new_units

inductive RateUnits where
  | PER_MILLISECOND | PER_SECOND | PER_MINUTE | PER_HOUR | PER_DAY | PER_WEEK
  | PER_MONTH | PER_YEAR
deriving DecidableEq, Fintype, Repr

/-- `RateUnits` member attribute `time_unit` (outputs.py lines 232-239). -/
def RateUnits.time_unit : RateUnits → TimeUnits
  | .PER_MILLISECOND => .MILLISECOND
  | .PER_SECOND => .SECOND
  | .PER_MINUTE => .MINUTE
  | .PER_HOUR => .HOUR
  | .PER_DAY => .DAY
  | .PER_WEEK => .WEEK
  | .PER_MONTH => .MONTH
  | .PER_YEAR => .YEAR

/-- `RateUnits.modifier` (outputs.py lines 245-246). -/
def RateUnits.modifier (self units : RateUnits) : ℚ :=
  1.0 / self.time_unit.modifier units.time_unit

/-- `RateUnits.convert_to` (outputs.py lines 248-249). -/
def RateUnits.convert_to (self : RateUnits) (this_amount : ℚ) (new_units : RateUnits) : ℚ :=
  this_amount * self.modifier new_units

inductive AccelerationUnits where
  | MPS_SQ | FPS_SQ
deriving DecidableEq, Fintype, Repr

/-- `AccelerationUnits` member attribute `length_unit` (outputs.py lines 253-254). -/
def AccelerationUnits.length_unit : AccelerationUnits → LengthUnits
  | .MPS_SQ => .METER
  | .FPS_SQ => .FOOT

/-- `AccelerationUnits` member attribute `time_unit` (outputs.py lines 253-254). -/
def AccelerationUnits.time_unit : AccelerationUnits → TimeUnits
  | .MPS_SQ => .SECOND
  | .FPS_SQ => .SECOND

/-- `AccelerationUnits.modifier` (outputs.py lines 261-263): the source computes
`self.length_unit.modifier(units.length_unit) / d * d` with
`d = self.time_unit.modifier(units.time_unit)`, which by Python operator
precedence is `(length_modifier / d) * d`. -/
def AccelerationUnits.modifier (self units : AccelerationUnits) : ℚ :=
  let d := self.time_unit.modifier units.time_unit
  self.length_unit.modifier units.length_unit / d * d

/-- `AccelerationUnits.convert_to` (outputs.py lines 265-266). -/
def AccelerationUnits.convert_to (self : AccelerationUnits) (this_amount : ℚ)
    (new_units : AccelerationUnits) : ℚ :=
  this_amount * self.modifier new_units

inductive SpeedUnits where
  | MPS | KPH | FPS | FPM | MPH | KN
deriving DecidableEq, Fintype, Repr

/-- `SpeedUnits` member attribute `length_unit` (outputs.py lines 270-275). -/
def SpeedUnits.length_unit : SpeedUnits → LengthUnits
  | .MPS => .METER
  | .KPH => .KILOMETER
  | .FPS => .FOOT
  | .FPM => .FOOT
  | .MPH => .MILE
  | .KN => .NAUTICAL_MILE

/-- `SpeedUnits` member attribute `time_unit` (outputs.py lines 270-275). -/
def SpeedUnits.time_unit : SpeedUnits → TimeUnits
  | .MPS => .SECOND
  | .KPH => .HOUR
  | .FPS => .SECOND
  | .FPM => .MINUTE
  | .MPH => .HOUR
  | .KN => .HOUR

/-- `SpeedUnits.modifier` (outputs.py lines 282-283). -/
def SpeedUnits.modifier (self units : SpeedUnits) : ℚ :=
  self.length_unit.modifier units.length_unit / self.time_unit.modifier units.time_unit

/-- `SpeedUnits.convert_to` (outputs.py lines 285-286). -/
def SpeedUnits.convert_to (self : SpeedUnits) (this_amount : ℚ) (new_units : SpeedUnits) : ℚ :=
  this_amount * self.modifier new_units

inductive FlowRateUnits where
  | LITER_PER_SECOND | OIL_BARREL_PER_SECOND | CUBIC_METER_PER_SECOND
  | KILOGRAM_PER_SECOND | TON_PER_SECOND
deriving DecidableEq, Fintype, Repr

/-- `FlowRateUnits` member attribute `amount_unit` (outputs.py lines 290-294). -/
def FlowRateUnits.amount_unit : FlowRateUnits → AmountUnits
  | .LITER_PER_SECOND => .LITER
  | .OIL_BARREL_PER_SECOND => .OIL_BARREL
  | .CUBIC_METER_PER_SECOND => .CUBIC_METER
  | .KILOGRAM_PER_SECOND => .KILOGRAM
  | .TON_PER_SECOND => .TON

/-- `FlowRateUnits` member attribute `time_unit` (outputs.py lines 290-294). -/
def FlowRateUnits.time_unit : FlowRateUnits → TimeUnits
  | _ => .SECOND

/-- `FlowRateUnits.modifier` (outputs.py lines 301-302). -/
def FlowRateUnits.modifier (self units : FlowRateUnits) : ℚ :=
  self.amount_unit.modifier units.amount_unit / self.time_unit.modifier units.time_unit

/-- `FlowRateUnits.convert_to` (outputs.py lines 304-305). -/
def FlowRateUnits.convert_to (self : FlowRateUnits) (this_amount : ℚ)
    (new_units : FlowRateUnits) : ℚ :=
  this_amount * self.modifier new_units

inductive RotationSpeedUnits where
  | RPM | RAD_PER_SECOND | DEG_PER_SECOND
deriving DecidableEq, Fintype, Repr

/-- `RotationSpeedUnits` member attribute `angle_unit` (outputs.py lines 309-311). -/
def RotationSpeedUnits.angle_unit : RotationSpeedUnits → AngleUnits
  | .RPM => .TURN
  | .RAD_PER_SECOND => .RADIAN
  | .DEG_PER_SECOND => .DEGREE

/-- `RotationSpeedUnits` member attribute `time_unit` (outputs.py lines 309-311). -/
def RotationSpeedUnits.time_unit : RotationSpeedUnits → TimeUnits
  | .RPM => .MINUTE
  | .RAD_PER_SECOND => .SECOND
  | .DEG_PER_SECOND => .SECOND

/-- `RotationSpeedUnits.modifier` (outputs.py lines 318-319). -/
def RotationSpeedUnits.modifier (self units : RotationSpeedUnits) : ℚ :=
  self.angle_unit.modifier units.angle_unit / self.time_unit.modifier units.time_unit

/-- `RotationSpeedUnits.convert_to` (outputs.py lines 321-322). -/
def RotationSpeedUnits.convert_to (self : RotationSpeedUnits) (this_amount : ℚ)
    (new_units : RotationSpeedUnits) : ℚ :=
  this_amount * self.modifier new_units

/-! ## Cross-family dynamic dispatch

Python enforces none of the `modifier` type hints; a member of any family may
be passed as `units`.  `UnitMember` sums all families, and the `attr?`
functions below model Python attribute lookup on a member (returning `none`
exactly when the attribute does not exist on that enum, i.e. when Python
raises `AttributeError`). -/

inductive UnitMember where
  | amount (u : AmountUnits)
  | time (u : TimeUnits)
  | length (u : LengthUnits)
  | angle (u : AngleUnits)
  | area (u : AreaUnits)
  | rate (u : RateUnits)
  | accel (u : AccelerationUnits)
  | speed (u : SpeedUnits)
  | flow (u : FlowRateUnits)
  | rot (u : RotationSpeedUnits)
deriving DecidableEq, Repr

/-- Attribute `conversion_factor`: present only on the numeric families. -/
def UnitMember.conversion_factor? : UnitMember → Option ℚ
  | .amount u => some u.conversion_factor
  | .time u => some u.conversion_factor
  | .length u => some u.conversion_factor
  | .angle u => some u.conversion_factor
  | _ => none

/-- Attribute `si`: present only on `AreaUnits`. -/
def UnitMember.si? : UnitMember → Option ℚ
  | .area u => some u.si
  | _ => none

/-- Attribute `time_unit`: present on the rate/velocity-shaped families. -/
def UnitMember.time_unit? : UnitMember → Option TimeUnits
  | .rate u => some u.time_unit
  | .accel u => some u.time_unit
  | .speed u => some u.time_unit
  | .flow u => some u.time_unit
  | .rot u => some u.time_unit
  | _ => none

/-- Attribute `length_unit`: present on Area, Acceleration and Speed. -/
def UnitMember.length_unit? : UnitMember → Option LengthUnits
  | .area u => some u.length_unit
  | .accel u => some u.length_unit
  | .speed u => some u.length_unit
  | _ => none

/-- Attribute `amount_unit`: present only on `FlowRateUnits`. -/
def UnitMember.amount_unit? : UnitMember → Option AmountUnits
  | .flow u => some u.amount_unit
  | _ => none

/-- Attribute `angle_unit`: present only on `RotationSpeedUnits`. -/
def UnitMember.angle_unit? : UnitMember → Option AngleUnits
  | .rot u => some u.angle_unit
  | _ => none

/-- The `modifier` method as Python actually executes it: dispatch on the
receiver's class, then duck-typed attribute access on the argument, raising
`AttributeError` only when the accessed attribute is missing.  Attribute
accesses are performed in the source's evaluation order. -/
def UnitMember.modifier_dyn : UnitMember → UnitMember → Except PyErr ℚ
  | .amount u, o =>
    match o.conversion_factor? with
    | some f => .ok (u.conversion_factor / f)
    | none => .error .attributeError
  | .time u, o =>
    match o.conversion_factor? with
    | some f => .ok (u.conversion_factor / f)
    | none => .error .attributeError
  | .length u, o =>
    match o.conversion_factor? with
    | some f => .ok (u.conversion_factor / f)
    | none => .error .attributeError
  | .angle u, o =>
    match o.conversion_factor? with
    | some f => .ok (u.conversion_factor / f)
    | none => .error .attributeError
  | .area u, o =>
    match o.si? with
    | some s => .ok (u.si / s)
    | none => .error .attributeError
  | .rate u, o =>
    match o.time_unit? with
    | some t => .ok (1.0 / u.time_unit.modifier t)
    | none => .error .attributeError
  | .accel u, o =>
    match o.time_unit? with
    | some t =>
      match o.length_unit? with
      | some l => .ok (u.length_unit.modifier l / u.time_unit.modifier t * u.time_unit.modifier t)
      | none => .error .attributeError
    | none => .error .attributeError
  | .speed u, o =>
    match o.length_unit? with
    | some l =>
      match o.time_unit? with
      | some t => .ok (u.length_unit.modifier l / u.time_unit.modifier t)
      | none => .error .attributeError
    | none => .error .attributeError
  | .flow u, o =>
    match o.amount_unit? with
    | some a =>
      match o.time_unit? with
      | some t => .ok (u.amount_unit.modifier a / u.time_unit.modifier t)
      | none => .error .attributeError
    | none => .error .attributeError
  | .rot u, o =>
    match o.angle_unit? with
    | some a =>
      match o.time_unit? with
      | some t => .ok (u.angle_unit.modifier a / u.time_unit.modifier t)
      | none => .error .attributeError
    | none => .error .attributeError

/-- The `convert_to` method under the same dynamic dispatch:
`this_amount * self.modifier(new_units)`. -/
def UnitMember.convert_to_dyn (self : UnitMember) (this_amount : ℚ) (new_units : UnitMember) :
    Except PyErr ℚ :=
  (self.modifier_dyn new_units).map (fun m => this_amount * m)

/-- Python `type(a) == type(b)` on two unit members: same enumeration. -/
def UnitMember.sameFamily : UnitMember → UnitMember → Bool
  | .amount _, .amount _ => true
  | .time _, .time _ => true
  | .length _, .length _ => true
  | .angle _, .angle _ => true
  | .area _, .area _ => true
  | .rate _, .rate _ => true
  | .accel _, .accel _ => true
  | .speed _, .speed _ => true
  | .flow _, .flow _ => true
  | .rot _, .rot _ => true
  | _, _ => false

/-! ## Unit-name resolution (UnitValue.__post_init__, outputs.py lines 339-353) -/

/-- Python enum member name (`e.name`) of an `AmountUnits` member. -/
def AmountUnits.pyName : AmountUnits → String
  | .LITER => "LITER"
  | .OIL_BARREL => "OIL_BARREL"
  | .CUBIC_METER => "CUBIC_METER"
  | .KILOGRAM => "KILOGRAM"
  | .TON => "TON"

/-- Python enum member name of a `TimeUnits` member. -/
def TimeUnits.pyName : TimeUnits → String
  | .MILLISECOND => "MILLISECOND"
  | .SECOND => "SECOND"
  | .MINUTE => "MINUTE"
  | .HOUR => "HOUR"
  | .DAY => "DAY"
  | .WEEK => "WEEK"
  | .MONTH => "MONTH"
  | .YEAR => "YEAR"

/-- Python enum member name of a `LengthUnits` member. -/
def LengthUnits.pyName : LengthUnits → String
  | .MILLIMETER => "MILLIMETER"
  | .CENTIMETER => "CENTIMETER"
  | .METER => "METER"
  | .KILOMETER => "KILOMETER"
  | .INCH => "INCH"
  | .FOOT => "FOOT"
  | .YARD => "YARD"
  | .MILE => "MILE"
  | .NAUTICAL_MILE => "NAUTICAL_MILE"

/-- Python enum member name of an `AngleUnits` member. -/
def AngleUnits.pyName : AngleUnits → String
  | .TURN => "TURN"
  | .RADIAN => "RADIAN"
  | .DEGREE => "DEGREE"

/-- Python enum member name of an `AreaUnits` member. -/
def AreaUnits.pyName : AreaUnits → String
  | .SQ_MILLIMETER => "SQ_MILLIMETER"
  | .SQ_CENTIMETER => "SQ_CENTIMETER"
  | .SQ_METER => "SQ_METER"
  | .SQ_KILOMETER => "SQ_KILOMETER"
  | .SQ_INCH => "SQ_INCH"
  | .SQ_FOOT => "SQ_FOOT"
  | .SQ_YARD => "SQ_YARD"
  | .SQ_MILE => "SQ_MILE"
  | .SQ_NAUTICAL_MILE => "SQ_NAUTICAL_MILE"

/-- Python enum member name of a `RateUnits` member. -/
def RateUnits.pyName : RateUnits → String
  | .PER_MILLISECOND => "PER_MILLISECOND"
  | .PER_SECOND => "PER_SECOND"
  | .PER_MINUTE => "PER_MINUTE"
  | .PER_HOUR => "PER_HOUR"
  | .PER_DAY => "PER_DAY"
  | .PER_WEEK => "PER_WEEK"
  | .PER_MONTH => "PER_MONTH"
  | .PER_YEAR => "PER_YEAR"

/-- Python enum member name of an `AccelerationUnits` member. -/
def AccelerationUnits.pyName : AccelerationUnits → String
  | .MPS_SQ => "MPS_SQ"
  | .FPS_SQ => "FPS_SQ"

/-- Python enum member name of a `SpeedUnits` member. -/
def SpeedUnits.pyName : SpeedUnits → String
  | .MPS => "MPS"
  | .KPH => "KPH"
  | .FPS => "FPS"
  | .FPM => "FPM"
  | .MPH => "MPH"
  | .KN => "KN"

/-- Python enum member name of a `FlowRateUnits` member. -/
def FlowRateUnits.pyName : FlowRateUnits → String
  | .LITER_PER_SECOND => "LITER_PER_SECOND"
  | .OIL_BARREL_PER_SECOND => "OIL_BARREL_PER_SECOND"
  | .CUBIC_METER_PER_SECOND => "CUBIC_METER_PER_SECOND"
  | .KILOGRAM_PER_SECOND => "KILOGRAM_PER_SECOND"
  | .TON_PER_SECOND => "TON_PER_SECOND"

/-- Python enum member name of a `RotationSpeedUnits` member. -/
def RotationSpeedUnits.pyName : RotationSpeedUnits → String
  | .RPM => "RPM"
  | .RAD_PER_SECOND => "RAD_PER_SECOND"
  | .DEG_PER_SECOND => "DEG_PER_SECOND"

/-- Python enum member name of any unit member. -/
def UnitMember.pyName : UnitMember → String
  | .amount u => u.pyName
  | .time u => u.pyName
  | .length u => u.pyName
  | .angle u => u.pyName
  | .area u => u.pyName
  | .rate u => u.pyName
  | .accel u => u.pyName
  | .speed u => u.pyName
  | .flow u => u.pyName
  | .rot u => u.pyName

/-- Members of `AmountUnits` in declaration order. -/
def AmountUnits.members : List AmountUnits :=
  [.LITER, .OIL_BARREL, .CUBIC_METER, .KILOGRAM, .TON]

/-- Members of `TimeUnits` in declaration order. -/
def TimeUnits.members : List TimeUnits :=
  [.MILLISECOND, .SECOND, .MINUTE, .HOUR, .DAY, .WEEK, .MONTH, .YEAR]

/-- Members of `LengthUnits` in declaration order. -/
def LengthUnits.members : List LengthUnits :=
  [.MILLIMETER, .CENTIMETER, .METER, .KILOMETER, .INCH, .FOOT, .YARD, .MILE, .NAUTICAL_MILE]

/-- Members of `AngleUnits` in declaration order. -/
def AngleUnits.members : List AngleUnits := [.TURN, .RADIAN, .DEGREE]

/-- Members of `AreaUnits` in declaration order. -/
def AreaUnits.members : List AreaUnits :=
  [.SQ_MILLIMETER, .SQ_CENTIMETER, .SQ_METER, .SQ_KILOMETER, .SQ_INCH, .SQ_FOOT,
   .SQ_YARD, .SQ_MILE, .SQ_NAUTICAL_MILE]

/-- Members of `RateUnits` in declaration order. -/
def RateUnits.members : List RateUnits :=
  [.PER_MILLISECOND, .PER_SECOND, .PER_MINUTE, .PER_HOUR, .PER_DAY, .PER_WEEK,
   .PER_MONTH, .PER_YEAR]

/-- Members of `AccelerationUnits` in declaration order. -/
def AccelerationUnits.members : List AccelerationUnits := [.MPS_SQ, .FPS_SQ]

/-- Members of `SpeedUnits` in declaration order. -/
def SpeedUnits.members : List SpeedUnits := [.MPS, .KPH, .FPS, .FPM, .MPH, .KN]

/-- Members of `FlowRateUnits` in declaration order. -/
def FlowRateUnits.members : List FlowRateUnits :=
  [.LITER_PER_SECOND, .OIL_BARREL_PER_SECOND, .CUBIC_METER_PER_SECOND,
   .KILOGRAM_PER_SECOND, .TON_PER_SECOND]

/-- Members of `RotationSpeedUnits` in declaration order. -/
def RotationSpeedUnits.members : List RotationSpeedUnits :=
  [.RPM, .RAD_PER_SECOND, .DEG_PER_SECOND]

/-- All unit members, in exactly the iteration order of
`UnitValue.__post_init__` (outputs.py lines 344-346): the class tuple order,
and declaration order within each class. -/
def allUnitMembers : List UnitMember :=
  AmountUnits.members.map .amount ++ TimeUnits.members.map .time ++
  LengthUnits.members.map .length ++ AngleUnits.members.map .angle ++
  AreaUnits.members.map .area ++ RateUnits.members.map .rate ++
  AccelerationUnits.members.map .accel ++ SpeedUnits.members.map .speed ++
  FlowRateUnits.members.map .flow ++ RotationSpeedUnits.members.map .rot

/-- `UnitValue.__post_init__` string-unit resolution (outputs.py lines 339-353):
scan the families in the fixed order for the first member whose `name` equals
the given string; `AttributeError` when none matches. -/
def resolve_unit (s : String) : Except PyErr UnitMember :=
  match allUnitMembers.find? (fun u => u.pyName == s) with
  | some u => .ok u
  | none => .error .attributeError

/-! ## UnitValue (outputs.py lines 325-416) -/

/-- `UnitValue`: a numeric value paired with a (resolved) unit enum member. -/
structure UnitValue where
  value : ℚ
  unit : UnitMember
deriving DecidableEq, Repr

/-- `UnitValue(value, unit_string)` including `__post_init__` resolution of a
string unit (outputs.py lines 339-353). -/
def mkUnitValue (v : ℚ) (s : String) : Except PyErr UnitValue :=
  (resolve_unit s).map (fun u => ⟨v, u⟩)

/-- The second operand of a `UnitValue` arithmetic operation: a bare number,
another `UnitValue`, or any other Python object. -/
inductive Operand where
  | num (q : ℚ)
  | uv (u : UnitValue)
  | otherObject
deriving DecidableEq, Repr

/-- `UnitValue._check_type_and_convert` (outputs.py lines 355-364): numbers are
kept in the receiver's own unit; non-`UnitValue` objects raise
`NotImplementedError`; a `UnitValue` of a different unit family raises
`NotImplementedError`; otherwise the other value is converted into the
receiver's unit. -/
def UnitValue.check_type_and_convert (self : UnitValue) : Operand → Except PyErr (ℚ × UnitMember)
  | .num q => .ok (q, self.unit)
  | .otherObject => .error .notImplementedError
  | .uv o =>
    if self.unit.sameFamily o.unit then
      match o.unit.convert_to_dyn o.value self.unit with
      | .ok v => .ok (v, self.unit)
      | .error e => .error e
    else .error .notImplementedError

/-- `UnitValue._apply_operation` (outputs.py lines 366-370): check/convert the
operand, apply the binary operation, and build a new `UnitValue`. -/
def UnitValue.apply_operation (self : UnitValue) (other : Operand) (op : ℚ → ℚ → ℚ) :
    Except PyErr UnitValue :=
  match self.check_type_and_convert other with
  | .ok (other_value, unit) => .ok ⟨op self.value other_value, unit⟩
  | .error e => .error e

/-- `UnitValue.__add__` (outputs.py lines 380-381). -/
def UnitValue.add (self : UnitValue) (other : Operand) : Except PyErr UnitValue :=
  self.apply_operation other (fun a b => a + b)

/-- `UnitValue.__sub__` (outputs.py lines 383-384). -/
def UnitValue.sub (self : UnitValue) (other : Operand) : Except PyErr UnitValue :=
  self.apply_operation other (fun a b => a - b)

/-- `UnitValue.__mul__` (outputs.py lines 386-387). -/
def UnitValue.mul (self : UnitValue) (other : Operand) : Except PyErr UnitValue :=
  self.apply_operation other (fun a b => a * b)

/-- `UnitValue.__truediv__` (outputs.py lines 389-390); rational division
stands in for Python float division (divisor 0 not modelled). -/
def UnitValue.div (self : UnitValue) (other : Operand) : Except PyErr UnitValue :=
  self.apply_operation other (fun a b => a / b)

/-- Outcome of an augmented assignment `x op= y` under Python semantics
(`x = x.__iop__(y)`): `ret` is what the name `x` is rebound to (the method's
return value), `self_after` is the receiver object after the method body ran. -/
structure AugAssignOutcome where
  ret : Option UnitValue
  self_after : UnitValue
deriving DecidableEq, Repr

/-- `UnitValue.__iadd__` (outputs.py lines 392-394): computes `self + other`,
assigns the result's value into `self.value`, and — having no return
statement — returns Python `None`. -/
def UnitValue.iadd (self : UnitValue) (other : Operand) : Except PyErr AugAssignOutcome :=
  match self.add other with
  | .ok new_uv => .ok ⟨none, { self with value := new_uv.value }⟩
  | .error e => .error e

/-- `UnitValue.__isub__` (outputs.py lines 396-398). -/
def UnitValue.isub (self : UnitValue) (other : Operand) : Except PyErr AugAssignOutcome :=
  match self.sub other with
  | .ok new_uv => .ok ⟨none, { self with value := new_uv.value }⟩
  | .error e => .error e

/-- `UnitValue.__imul__` (outputs.py lines 400-402). -/
def UnitValue.imul (self : UnitValue) (other : Operand) : Except PyErr AugAssignOutcome :=
  match self.mul other with
  | .ok new_uv => .ok ⟨none, { self with value := new_uv.value }⟩
  | .error e => .error e

/-- `UnitValue.__itruediv__` (outputs.py lines 404-406). -/
def UnitValue.idiv (self : UnitValue) (other : Operand) : Except PyErr AugAssignOutcome :=
  match self.div other with
  | .ok new_uv => .ok ⟨none, { self with value := new_uv.value }⟩
  | .error e => .error e

/-! ## EngineSettings (alpyne/data.py lines 306-394)

Python datetimes are modelled as rational seconds since the epoch
(`datetime` subtraction `.total_seconds()` becomes rational subtraction,
`date + timedelta(seconds=s)` becomes addition).  A stop-time number may be
`float('inf')` (the schema default for an unbounded run), modelled by `ERat`. -/

/-- A Python number that is either finite or `float('inf')`. -/
inductive ERat where
  | fin (q : ℚ)
  | inf
deriving DecidableEq, Repr

/-- Multiply an extended value by a (positive) conversion modifier, as float
multiplication does: `inf * m = inf`.  Every unit modifier in scope is a
positive rational. -/
def ERat.scale (x : ERat) (m : ℚ) : ERat :=
  match x with
  | .fin q => .fin (q * m)
  | .inf => .inf

/-- Subtract a finite number from an extended value (`inf - q = inf`). -/
def ERat.subFin (x : ERat) (q : ℚ) : ERat :=
  match x with
  | .fin p => .fin (p - q)
  | .inf => .inf

/-- The single `_stop_arg` slot of `EngineSettings`: it holds a number when the
stop condition was last given as a time and a datetime when last given as a
date. -/
inductive StopArg where
  | timeVal (t : ERat)
  | dateVal (d : ℚ)
deriving DecidableEq, Repr

/-- State of an `EngineSettings` instance (data.py lines 306-394). -/
structure EngineSettings where
  units : TimeUnits
  start_time : ℚ
  start_date : ℚ
  seed : Option ℤ
  using_stop_time : Bool
  stop_arg : StopArg
deriving DecidableEq, Repr

/-- `EngineSettings.__init__` before overrides (data.py lines 316-325): the
authority flag starts true and `_stop_arg` holds the schema's stop time. -/
def EngineSettings.init (units : TimeUnits) (start_time start_date : ℚ) (seed : Option ℤ)
    (schema_stop_time : ERat) : EngineSettings :=
  ⟨units, start_time, start_date, seed, true, .timeVal schema_stop_time⟩

/-- `stop_time` setter with a plain number (data.py lines 366-374). -/
def EngineSettings.set_stop_time (s : EngineSettings) (new_value : ERat) : EngineSettings :=
  { s with using_stop_time := true, stop_arg := .timeVal new_value }

/-- `stop_time` setter with a `UnitValue` carrying a time unit (data.py lines
371-374): the value is first converted into the model's units. -/
def EngineSettings.set_stop_time_uv (s : EngineSettings) (v : ℚ) (u : TimeUnits) :
    EngineSettings :=
  { s with using_stop_time := true, stop_arg := .timeVal (.fin (u.convert_to v s.units)) }

/-- `stop_date` setter (data.py lines 387-393). -/
def EngineSettings.set_stop_date (s : EngineSettings) (value : ℚ) : EngineSettings :=
  { s with using_stop_time := false, stop_arg := .dateVal value }

/-- `stop_time` getter (data.py lines 357-364).  Result `none` marks the
ill-typed states (flag out of sync with the slot) in which Python would
return a datetime as a time, or raise; the setters never produce them. -/
def EngineSettings.stop_time_get (s : EngineSettings) : Option ERat :=
  if s.using_stop_time then
    match s.stop_arg with
    | .timeVal t => some t
    | .dateVal _ => none
  else
    match s.stop_arg with
    | .dateVal d => some (.fin (TimeUnits.SECOND.convert_to (d - s.start_date) s.units))
    | .timeVal _ => none

/-- `stop_date` getter (data.py lines 376-385).  The outer `Option` marks the
unreachable ill-typed states; the inner one is the getter's Python result,
`none` being Python `None` (returned when the stop time is infinity). -/
def EngineSettings.stop_date_get (s : EngineSettings) : Option (Option ℚ) :=
  if s.using_stop_time then
    match s.stop_arg with
    | .timeVal .inf => some none
    | .timeVal (.fin t) =>
      some (some (s.start_date + s.units.convert_to (t - s.start_time) TimeUnits.SECOND))
    | .dateVal _ => none
  else
    match s.stop_arg with
    | .dateVal d => some (some d)
    | .timeVal _ => none

/-- The mutating operations available on an `EngineSettings` instance. -/
inductive ESOp where
  | setStopTime (v : ERat)
  | setStopTimeUV (v : ℚ) (u : TimeUnits)
  | setStopDate (d : ℚ)
  | setUnits (u : TimeUnits)
  | setStartTime (t : ℚ)
  | setStartDate (d : ℚ)
  | setSeed (z : Option ℤ)
deriving DecidableEq, Repr

/-- Apply one operation to the settings state. -/
def EngineSettings.applyOp (s : EngineSettings) : ESOp → EngineSettings
  | .setStopTime v => s.set_stop_time v
  | .setStopTimeUV v u => s.set_stop_time_uv v u
  | .setStopDate d => s.set_stop_date d
  | .setUnits u => { s with units := u }
  | .setStartTime t => { s with start_time := t }
  | .setStartDate d => { s with start_date := d }
  | .setSeed z => { s with seed := z }

/-- Apply a sequence of operations (an arbitrary interleaving of setter calls). -/
def EngineSettings.applyOps (s : EngineSettings) (ops : List ESOp) : EngineSettings :=
  ops.foldl EngineSettings.applyOp s

/-- The authority invariant: the `_using_stop_time` flag agrees with the
content of `_stop_arg`, so exactly one stop condition is authoritative. -/
def EngineSettings.wf (s : EngineSettings) : Prop :=
  (s.using_stop_time = true ∧ ∃ t, s.stop_arg = .timeVal t) ∨
  (s.using_stop_time = false ∧ ∃ d, s.stop_arg = .dateVal d)

/-! ## Python/JSON values

A single value universe shared by the typed-space and wire-codec models:
JSON null/booleans/numbers/strings/arrays/objects (Python objects are dicts
of string keys here, as everywhere in the wire layer). -/

inductive PyVal where
  | null
  | bool (b : Bool)
  | num (q : ℚ)
  | str (s : String)
  | arr (xs : List PyVal)
  | obj (fields : List (String × PyVal))

/-! ## Schema-validated spaces (alpyne/data.py lines 21-88)

`_SimRLSpace` is a `UserDict` validated against a schema subsection,
a `dict[str, FieldData]`.  We model the schema as an association list from
field names to their default value (the result of `FieldData.py_value`,
whose type-coercion internals are orthogonal to the schema-enforcement
claims), and the dict contents as an association list. -/

/-- The data payload of `NotAFieldException` (alpyne/errors.py lines 5-10):
the message carries the attempted name and the list of valid names. -/
structure NotAField where
  valid : List String
  attempted : String
deriving DecidableEq

/-- The names of a schema subsection, in declaration order
(`list(subschema.keys())`). -/
def schemaNames (schema : List (String × PyVal)) : List String :=
  schema.map Prod.fst

/-- First binding of a key in an association list (Python dict lookup; the
lists we build have distinct keys). -/
def lookupKey (fields : List (String × PyVal)) (k : String) : Option PyVal :=
  (fields.find? (fun p => p.1 == k)).map Prod.snd

/-- Replace the binding of `k`, or append it (Python `dict.__setitem__`). -/
def setKey : List (String × PyVal) → String → PyVal → List (String × PyVal)
  | [], k, v => [(k, v)]
  | (k', v') :: rest, k, v =>
    if k' == k then (k, v) :: rest else (k', v') :: setKey rest k v

/-- Contents of a `_SimRLSpace` instance (its `UserDict.data`). -/
structure SimSpace where
  data : List (String × PyVal)
deriving Inhabited

/-- `_SimRLSpace.__missing__` (data.py lines 45-51): an undeclared key raises
`NotAFieldException`; a declared one yields its schema default. -/
def simMissing (schema : List (String × PyVal)) (key : String) : Except NotAField PyVal :=
  match lookupKey schema key with
  | some dflt => .ok dflt
  | none => .error ⟨schemaNames schema, key⟩

/-- `UserDict.__getitem__` on a `_SimRLSpace`: the stored value when present,
otherwise `__missing__` (data.py lines 45-51). -/
def simGetItem (schema : List (String × PyVal)) (s : SimSpace) (key : String) :
    Except NotAField PyVal :=
  match lookupKey s.data key with
  | some v => .ok v
  | none => simMissing schema key

/-- `_SimRLSpace.__setitem__` (data.py lines 53-58): keys not defined in the
schema are rejected, declared keys are stored. -/
def simSetItem (schema : List (String × PyVal)) (s : SimSpace) (key : String) (item : PyVal) :
    Except NotAField SimSpace :=
  if (schemaNames schema).contains key then .ok ⟨setKey s.data key item⟩
  else .error ⟨schemaNames schema, key⟩

/-! ## Attribute-style Observation (alpyne/spaces.py lines 52-67) -/

/-- State of an `alpyne.spaces.Observation` instance: whether the transient
`_initializing` marker is currently in `__dict__`, and the attribute dict. -/
structure ObsState where
  initializing : Bool
  fields : List (String × PyVal)

/-- `Observation.__setattr__` (spaces.py lines 64-67): once `_initializing`
has been popped, every write raises
`AttributeError("Cannot modify an immutable object")`. -/
def Observation.setattr (s : ObsState) (key : String) (value : PyVal) :
    Except PyErr ObsState :=
  if s.initializing = false then .error .attributeError
  else .ok ⟨s.initializing, setKey s.fields key value⟩

/-- `Observation.__init__` (spaces.py lines 56-62): set the `_initializing`
marker, assign each keyword pair through `__setattr__`, pop the marker. -/
def Observation.construct (kwargs : List (String × PyVal)) : ObsState :=
  let s0 : ObsState := ⟨true, []⟩
  let s1 := kwargs.foldl
    (fun st kv =>
      match Observation.setattr st kv.1 kv.2 with
      | .ok st' => st'
      | .error _ => st) s0
  ⟨false, s1.fields⟩

/-! ## Ranged-value cursor (alpyne/data/spaces.py lines 171-185, 160-169)

`Configuration.__setattr__` turns an assigned `(start, stop[, step])` tuple
into `itertools.cycle` over a materialized list, wrapped in a lambda;
`Configuration.__getattr__` calls the lambda on every read, so the k-th read
returns element `k mod n` of the list. -/

/-- The list materialized from a `(start, stop, step)` tuple (spaces.py lines
180-182): `count = abs(int(ceil((stop - start) / step)))` terms of
`itertools.count(start, step)`, i.e. `start + i*step` for `i < count`. -/
def materializeRange (start stop step : ℚ) : List ℚ :=
  let count := (⌈(stop - start) / step⌉).natAbs
  (List.range count).map (fun i : ℕ => start + (i : ℚ) * step)

/-- The list materialized from a 2-tuple `(start, stop)`: `step` defaults to 1
(spaces.py line 180). -/
def materializeRange2 (start stop : ℚ) : List ℚ :=
  materializeRange start stop 1

/-- Cursor state produced by assigning a range tuple: the cycled list plus the
number of reads taken so far. -/
structure RangedCursor where
  values : List ℚ
  pos : ℕ

/-- Assigning a 3-tuple `(start, stop, step)` to a `Configuration` field
(spaces.py lines 178-184). -/
def assignTuple (start stop step : ℚ) : RangedCursor :=
  ⟨materializeRange start stop step, 0⟩

/-- One read of a ranged field (`Configuration.__getattr__`, spaces.py lines
167-169, calling `next(cycler)`): returns element `pos mod n` and advances the
cursor; reading a cycle over an empty list raises `StopIteration`. -/
def RangedCursor.read (c : RangedCursor) : Except PyErr (ℚ × RangedCursor) :=
  match c.values[c.pos % c.values.length]? with
  | some v => .ok (v, ⟨c.values, c.pos + 1⟩)
  | none => .error .stopIteration

/-- Value of the (k+1)-th read from a cursor (each read advances it). -/
def RangedCursor.nthRead (c : RangedCursor) : ℕ → Option ℚ
  | 0 =>
    match c.read with
    | .ok (v, _) => some v
    | .error _ => none
  | k + 1 =>
    match c.read with
    | .ok (_, c') => c'.nthRead k
    | .error _ => none

/-- Value returned by the (k+1)-th read of the field assigned
`(start, stop, step)` (reads advance the cursor by one each time). -/
def rangeRead (start stop step : ℚ) (k : ℕ) : Option ℚ :=
  let vs := materializeRange start stop step
  vs[k % vs.length]?

/-! ## Wire decoder (alpyne/utils.py lines 105-122, alpyne/data.py lines 176-195) -/

/-- The decoded `FieldData` record (data.py lines 176-195).  The dataclass
performs no type validation, so each field holds whatever JSON value the
object carried; `units` defaults to Python `None`. -/
structure FieldData where
  name : PyVal
  type : PyVal
  value : PyVal
  units : PyVal

/-- Result of `AlpyneJSONDecoder.decode`: either the parsed value unchanged or
a recognized `FieldData`. -/
inductive Decoded where
  | plain (j : PyVal)
  | fieldData (f : FieldData)

/-- The decoder's recognition test (utils.py line 120):
`all(key in obj for key in ('name', 'type', 'value'))` — key containment. -/
def hasNTV (fields : List (String × PyVal)) : Bool :=
  ["name", "type", "value"].all (fun k => (fields.map Prod.fst).contains k)

/-- Whether every key of the object is an accepted `FieldData` constructor
argument; any other keyword makes `FieldData(**obj)` raise `TypeError`. -/
def onlyFDKeys (fields : List (String × PyVal)) : Bool :=
  fields.all (fun p => p.1 == "name" || p.1 == "type" || p.1 == "value" || p.1 == "units")

/-- `FieldData(**obj)` (utils.py line 121): `TypeError` on an unexpected
keyword; otherwise the dataclass takes the three required fields and `units`
(defaulting to `None`). -/
def mkFieldDataFromObj (fields : List (String × PyVal)) : Except PyErr FieldData :=
  if onlyFDKeys fields then
    match lookupKey fields "name", lookupKey fields "type", lookupKey fields "value" with
    | some n, some t, some v => .ok ⟨n, t, v, (lookupKey fields "units").getD .null⟩
    | _, _, _ => .error .typeError
  else .error .typeError

/-- `AlpyneJSONDecoder.decode` (utils.py lines 113-122) applied to the parsed
top-level JSON value: an object containing the keys name/type/value is fed to
`FieldData(**obj)`; everything else is returned unchanged. -/
def decode (j : PyVal) : Except PyErr Decoded :=
  match j with
  | .obj fields =>
    if hasNTV fields then (mkFieldDataFromObj fields).map .fieldData
    else .ok (.plain j)
  | _ => .ok (.plain j)

/-! ## Helper lemmas -/

theorem AmountUnits.modifier_mul_amount (a b : AmountUnits) : a.modifier b * b.modifier a = 1 := by
  cases a <;> cases b <;> norm_num [AmountUnits.modifier, AmountUnits.conversion_factor]

theorem TimeUnits.modifier_mul_time (a b : TimeUnits) : a.modifier b * b.modifier a = 1 := by
  cases a <;> cases b <;> norm_num [TimeUnits.modifier, TimeUnits.conversion_factor]

theorem LengthUnits.modifier_mul_length (a b : LengthUnits) : a.modifier b * b.modifier a = 1 := by
  cases a <;> cases b <;> norm_num [LengthUnits.modifier, LengthUnits.conversion_factor]

theorem AngleUnits.modifier_mul_angle (a b : AngleUnits) : a.modifier b * b.modifier a = 1 := by
  cases a <;> cases b <;> norm_num [AngleUnits.modifier, AngleUnits.conversion_factor]

theorem AreaUnits.modifier_mul_area (a b : AreaUnits) : a.modifier b * b.modifier a = 1 := by
  cases a <;> cases b <;>
    norm_num [AreaUnits.modifier, AreaUnits.si, AreaUnits.length_unit,
      LengthUnits.modifier, LengthUnits.conversion_factor]

theorem RateUnits.modifier_mul_rate (a b : RateUnits) : a.modifier b * b.modifier a = 1 := by
  cases a <;> cases b <;>
    norm_num [RateUnits.modifier, RateUnits.time_unit,
      TimeUnits.modifier, TimeUnits.conversion_factor]

theorem AccelerationUnits.modifier_mul_accel (a b : AccelerationUnits) :
    a.modifier b * b.modifier a = 1 := by
  cases a <;> cases b <;>
    norm_num [AccelerationUnits.modifier, AccelerationUnits.length_unit,
      AccelerationUnits.time_unit, LengthUnits.modifier, LengthUnits.conversion_factor,
      TimeUnits.modifier, TimeUnits.conversion_factor]

theorem SpeedUnits.modifier_mul_speed (a b : SpeedUnits) : a.modifier b * b.modifier a = 1 := by
  cases a <;> cases b <;>
    norm_num [SpeedUnits.modifier, SpeedUnits.length_unit, SpeedUnits.time_unit,
      LengthUnits.modifier, LengthUnits.conversion_factor,
      TimeUnits.modifier, TimeUnits.conversion_factor]

theorem FlowRateUnits.modifier_mul_flow_rate (a b : FlowRateUnits) : a.modifier b * b.modifier a = 1 := by
  cases a <;> cases b <;>
    norm_num [FlowRateUnits.modifier, FlowRateUnits.amount_unit, FlowRateUnits.time_unit,
      AmountUnits.modifier, AmountUnits.conversion_factor,
      TimeUnits.modifier, TimeUnits.conversion_factor]

theorem RotationSpeedUnits.modifier_mul_rot_speed (a b : RotationSpeedUnits) :
    a.modifier b * b.modifier a = 1 := by
  cases a <;> cases b <;>
    norm_num [RotationSpeedUnits.modifier, RotationSpeedUnits.angle_unit,
      RotationSpeedUnits.time_unit, AngleUnits.modifier, AngleUnits.conversion_factor,
      TimeUnits.modifier, TimeUnits.conversion_factor]

/-! ## Claim theorems -/

/-- C6: for every pair of unit enum members in the same family — including the
compound families AreaUnits, RateUnits, SpeedUnits, AccelerationUnits,
FlowRateUnits and RotationSpeedUnits — and every value v, the round trip
`b.convert_to(a.convert_to(v, b), a)` returns exactly v when modelled over
exact rationals, because `modifier(a,b) * modifier(b,a) = 1`. -/
theorem unit_roundtrip_same_family :
    (∀ (a b : AmountUnits) (v : ℚ), b.convert_to (a.convert_to v b) a = v) ∧
    (∀ (a b : TimeUnits) (v : ℚ), b.convert_to (a.convert_to v b) a = v) ∧
    (∀ (a b : LengthUnits) (v : ℚ), b.convert_to (a.convert_to v b) a = v) ∧
    (∀ (a b : AngleUnits) (v : ℚ), b.convert_to (a.convert_to v b) a = v) ∧
    (∀ (a b : AreaUnits) (v : ℚ), b.convert_to (a.convert_to v b) a = v) ∧
    (∀ (a b : RateUnits) (v : ℚ), b.convert_to (a.convert_to v b) a = v) ∧
    (∀ (a b : AccelerationUnits) (v : ℚ), b.convert_to (a.convert_to v b) a = v) ∧
    (∀ (a b : SpeedUnits) (v : ℚ), b.convert_to (a.convert_to v b) a = v) ∧
    (∀ (a b : FlowRateUnits) (v : ℚ), b.convert_to (a.convert_to v b) a = v) ∧
    (∀ (a b : RotationSpeedUnits) (v : ℚ), b.convert_to (a.convert_to v b) a = v) := by
  refine ⟨?_, ?_, ?_, ?_, ?_, ?_, ?_, ?_, ?_, ?_⟩
  · intro a b v
    unfold AmountUnits.convert_to
    rw [mul_assoc, AmountUnits.modifier_mul_amount, mul_one]
  · intro a b v
    unfold TimeUnits.convert_to
    rw [mul_assoc, TimeUnits.modifier_mul_time, mul_one]
  · intro a b v
    unfold LengthUnits.convert_to
    rw [mul_assoc, LengthUnits.modifier_mul_length, mul_one]
  · intro a b v
    unfold AngleUnits.convert_to
    rw [mul_assoc, AngleUnits.modifier_mul_angle, mul_one]
  · intro a b v
    unfold AreaUnits.convert_to
    rw [mul_assoc, AreaUnits.modifier_mul_area, mul_one]
  · intro a b v
    unfold RateUnits.convert_to
    rw [mul_assoc, RateUnits.modifier_mul_rate, mul_one]
  · intro a b v
    unfold AccelerationUnits.convert_to
    rw [mul_assoc, AccelerationUnits.modifier_mul_accel, mul_one]
  · intro a b v
    unfold SpeedUnits.convert_to
    rw [mul_assoc, SpeedUnits.modifier_mul_speed, mul_one]
  · intro a b v
    unfold FlowRateUnits.convert_to
    rw [mul_assoc, FlowRateUnits.modifier_mul_flow_rate, mul_one]
  · intro a b v
    unfold RotationSpeedUnits.convert_to
    rw [mul_assoc, RotationSpeedUnits.modifier_mul_rot_speed, mul_one]

/-- C5 counterexample: `TimeUnits.SECOND.modifier(LengthUnits.METER)` — a
modifier between units of unrelated families — does not raise: it silently
returns the factor 1.0, and `convert_to` correspondingly returns the input
value unchanged. -/
theorem cross_family_modifier_counterexample :
    UnitMember.modifier_dyn (.time .SECOND) (.length .METER) = .ok 1 ∧
    UnitMember.convert_to_dyn (.time .SECOND) 5 (.length .METER) = .ok 5 := by
  constructor
  · norm_num [UnitMember.modifier_dyn, UnitMember.conversion_factor?,
      TimeUnits.conversion_factor, LengthUnits.conversion_factor]
  · norm_num [UnitMember.convert_to_dyn, UnitMember.modifier_dyn,
      UnitMember.conversion_factor?, TimeUnits.conversion_factor,
      LengthUnits.conversion_factor, Except.map]

/-- C5 amended: cross-family modifier calls are not validated.  When the
foreign member's enumeration also stores the attribute the receiver's
`modifier` reads — e.g. any TimeUnits member against any LengthUnits member,
both storing `conversion_factor` — the call silently returns the numeric
ratio of the factors (1.0 for SECOND vs METER); an error (`AttributeError`)
is raised only when the foreign member lacks that attribute, e.g. a TimeUnits
member against an AreaUnits member. -/
theorem cross_family_modifier_amended :
    (∀ (a : TimeUnits) (b : LengthUnits),
       UnitMember.modifier_dyn (.time a) (.length b) =
         .ok (a.conversion_factor / b.conversion_factor)) ∧
    (∀ (a : TimeUnits) (b : AreaUnits),
       UnitMember.modifier_dyn (.time a) (.area b) = .error .attributeError) := by
  constructor
  · intro a b
    simp [UnitMember.modifier_dyn, UnitMember.conversion_factor?]
  · intro a b
    simp [UnitMember.modifier_dyn, UnitMember.conversion_factor?]

/-- C10: constructing a `UnitValue` with a string unit resolves it against
enum member names scanned over the families in the fixed order of
`allUnitMembers`; success yields the given value paired with a proper unit
member whose name is the given string, and when no family has a member of
that name the constructor raises (`AttributeError`). -/
theorem unitvalue_string_resolution : ∀ (v : ℚ) (s : String),
    (∀ uv, mkUnitValue v s = .ok uv →
       uv.value = v ∧ uv.unit.pyName = s ∧ uv.unit ∈ allUnitMembers) ∧
    (mkUnitValue v s = .error .attributeError ↔ ∀ u ∈ allUnitMembers, u.pyName ≠ s) := by
  intro v s
  constructor
  · intro uv h
    unfold mkUnitValue resolve_unit at h
    cases hf : allUnitMembers.find? (fun u => u.pyName == s) with
    | none =>
      rw [hf] at h
      simp [Except.map] at h
    | some u =>
      rw [hf] at h
      simp only [Except.map] at h
      cases h
      have hp : (u.pyName == s) = true := by simpa using List.find?_some hf
      exact ⟨rfl, eq_of_beq hp, List.mem_of_find?_eq_some hf⟩
  · constructor
    · intro h u hu hne
      unfold mkUnitValue resolve_unit at h
      have hf : allUnitMembers.find? (fun w => w.pyName == s) = none := by
        cases hf : allUnitMembers.find? (fun w => w.pyName == s) with
        | none => rfl
        | some w =>
          rw [hf] at h
          simp [Except.map] at h
      have := List.find?_eq_none.mp hf u hu
      simp [hne] at this
    · intro h
      unfold mkUnitValue resolve_unit
      have hf : allUnitMembers.find? (fun w => w.pyName == s) = none :=
        List.find?_eq_none.mpr (fun u hu => by simp [h u hu])
      rw [hf]
      rfl

/-- C10 witness: resolving the string "SECOND" succeeds and yields the
TimeUnits member of that name with the given value. -/
theorem unitvalue_string_resolution_witness :
    UnitValue.value ⟨5, .time .SECOND⟩ = 5 ∧
    UnitMember.pyName (.time .SECOND) = "SECOND" ∧
    UnitMember.time .SECOND ∈ allUnitMembers := by
  exact (unitvalue_string_resolution 5 "SECOND").1 ⟨5, .time .SECOND⟩ rfl

/-- C7: evaluation of the arithmetic operators.  The plain operators behave as
the claim states (same-family operand converted into the receiver's unit,
bare number taken in the receiver's own unit, mixed families rejected), but
`__iadd__` — like the other in-place variants — updates the receiver object's
`value` and then returns Python `None`, so the augmented assignment
`x += y` rebinds `x` to `None`, not to the combined `UnitValue`. -/
theorem unitvalue_iadd_returns_none :
    UnitValue.iadd ⟨1, .time .SECOND⟩ (.num 1) =
      .ok ⟨none, ⟨2, .time .SECOND⟩⟩ ∧
    UnitValue.add ⟨1, .time .MINUTE⟩ (.uv ⟨60, .time .SECOND⟩) = .ok ⟨2, .time .MINUTE⟩ ∧
    UnitValue.add ⟨1, .time .SECOND⟩ (.num 2) = .ok ⟨3, .time .SECOND⟩ ∧
    UnitValue.add ⟨1, .time .SECOND⟩ (.uv ⟨1, .length .METER⟩) =
      .error .notImplementedError := by
  refine ⟨?_, ?_, ?_, ?_⟩
  · norm_num [UnitValue.iadd, UnitValue.add, UnitValue.apply_operation,
      UnitValue.check_type_and_convert]
  · norm_num [UnitValue.add, UnitValue.apply_operation, UnitValue.check_type_and_convert,
      UnitMember.sameFamily, UnitMember.convert_to_dyn, UnitMember.modifier_dyn,
      UnitMember.conversion_factor?, TimeUnits.conversion_factor, Except.map]
  · norm_num [UnitValue.add, UnitValue.apply_operation, UnitValue.check_type_and_convert]
  · norm_num [UnitValue.add, UnitValue.apply_operation, UnitValue.check_type_and_convert,
      UnitMember.sameFamily]

/-- C2: authority invariant of EngineSettings.  The constructor establishes
the invariant, every interleaving of setter operations preserves it, the
stop-time and stop-date setters make their own condition authoritative, and
each getter returns its stored value when authoritative and otherwise the
converted computation from the other stored value. -/
theorem engine_settings_authority :
    (∀ (s : EngineSettings) (ops : List ESOp), s.wf → (s.applyOps ops).wf) ∧
    (∀ (u : TimeUnits) (t0 d0 : ℚ) (z : Option ℤ) (t : ERat),
       (EngineSettings.init u t0 d0 z t).wf) ∧
    (∀ (s : EngineSettings) (v : ERat),
       (s.set_stop_time v).using_stop_time = true ∧
       (s.set_stop_time v).stop_arg = .timeVal v) ∧
    (∀ (s : EngineSettings) (d : ℚ),
       (s.set_stop_date d).using_stop_time = false ∧
       (s.set_stop_date d).stop_arg = .dateVal d) ∧
    (∀ (s : EngineSettings) (t : ERat), s.using_stop_time = true → s.stop_arg = .timeVal t →
       s.stop_time_get = some t) ∧
    (∀ (s : EngineSettings) (d : ℚ), s.using_stop_time = false → s.stop_arg = .dateVal d →
       s.stop_date_get = some (some d) ∧
       s.stop_time_get = some (.fin (TimeUnits.SECOND.convert_to (d - s.start_date) s.units))) ∧
    (∀ (s : EngineSettings) (q : ℚ), s.using_stop_time = true → s.stop_arg = .timeVal (.fin q) →
       s.stop_date_get =
         some (some (s.start_date + s.units.convert_to (q - s.start_time) TimeUnits.SECOND))) := by
  refine ⟨?_, ?_, ?_, ?_, ?_, ?_, ?_⟩
  · intro s ops
    induction ops generalizing s with
    | nil => exact fun h => h
    | cons op rest ih =>
      intro h
      refine ih _ ?_
      cases op with
      | setStopTime v => exact Or.inl ⟨rfl, v, rfl⟩
      | setStopTimeUV v u => exact Or.inl ⟨rfl, _, rfl⟩
      | setStopDate d => exact Or.inr ⟨rfl, d, rfl⟩
      | setUnits u => exact h
      | setStartTime t => exact h
      | setStartDate d => exact h
      | setSeed z => exact h
  · intro u t0 d0 z t
    exact Or.inl ⟨rfl, t, rfl⟩
  · intro s v
    exact ⟨rfl, rfl⟩
  · intro s d
    exact ⟨rfl, rfl⟩
  · intro s t h1 h2
    simp [EngineSettings.stop_time_get, h1, h2]
  · intro s d h1 h2
    constructor <;> simp [EngineSettings.stop_date_get, EngineSettings.stop_time_get, h1, h2]
  · intro s q h1 h2
    simp [EngineSettings.stop_date_get, h1, h2]

/-- C2 witness: start from schema stop time 10 (time-authoritative), set a
stop date; the invariant holds, the date getter returns the stored date, and
the time getter computes from the date. -/
theorem engine_settings_authority_witness :
    (EngineSettings.applyOps (EngineSettings.init .SECOND 0 0 none (.fin 10))
        [ESOp.setStopDate 5]).wf ∧
    (EngineSettings.applyOps (EngineSettings.init .SECOND 0 0 none (.fin 10))
        [ESOp.setStopDate 5]).stop_date_get = some (some 5) ∧
    (EngineSettings.applyOps (EngineSettings.init .SECOND 0 0 none (.fin 10))
        [ESOp.setStopDate 5]).stop_time_get =
      some (.fin (TimeUnits.SECOND.convert_to ((5 : ℚ) - 0) TimeUnits.SECOND)) := by
  refine ⟨?_, ?_, ?_⟩
  · exact engine_settings_authority.1 _ _ (Or.inl ⟨rfl, .fin 10, rfl⟩)
  · exact (engine_settings_authority.2.2.2.2.2.1 _ 5 rfl rfl).1
  · exact (engine_settings_authority.2.2.2.2.2.1 _ 5 rfl rfl).2

/-- C9: while time is the authoritative stop condition, the stop_date getter
returns Python None when the stored stop time is positive infinity, and a
computed date (start date plus the unit-converted difference) when it is
finite. -/
theorem stop_date_infinity :
    (∀ s : EngineSettings, s.using_stop_time = true → s.stop_arg = .timeVal .inf →
       s.stop_time_get = some .inf ∧ s.stop_date_get = some none) ∧
    (∀ (s : EngineSettings) (q : ℚ), s.using_stop_time = true → s.stop_arg = .timeVal (.fin q) →
       s.stop_date_get =
         some (some (s.start_date + s.units.convert_to (q - s.start_time) TimeUnits.SECOND))) := by
  constructor
  · intro s h1 h2
    constructor <;> simp [EngineSettings.stop_time_get, EngineSettings.stop_date_get, h1, h2]
  · intro s q h1 h2
    simp [EngineSettings.stop_date_get, h1, h2]

/-- C9 witness: a fresh EngineSettings whose schema stop time is infinity
reports stop_date None; one with finite stop time 10 reports a computed date. -/
theorem stop_date_infinity_witness :
    (EngineSettings.init .MINUTE 0 100 none .inf).stop_date_get = some none ∧
    (EngineSettings.init .MINUTE 0 100 none (.fin 10)).stop_date_get =
      some (some (100 + TimeUnits.MINUTE.convert_to ((10 : ℚ) - 0) TimeUnits.SECOND)) := by
  constructor
  · exact (stop_date_infinity.1 (EngineSettings.init .MINUTE 0 100 none .inf) rfl rfl).2
  · exact stop_date_infinity.2 (EngineSettings.init .MINUTE 0 100 none (.fin 10)) 10 rfl rfl

theorem lookupKey_eq_none_iff {l : List (String × PyVal)} {k : String} :
    lookupKey l k = none ↔ ∀ p ∈ l, p.1 ≠ k := by
  simp [lookupKey, List.find?_eq_none]

theorem lookupKey_isSome_of_mem_names {l : List (String × PyVal)} {k : String}
    (h : k ∈ l.map Prod.fst) : (lookupKey l k).isSome = true := by
  obtain ⟨p, hp, hpk⟩ := List.mem_map.mp h
  rw [Option.isSome_iff_ne_none]
  intro hn
  exact absurd hpk (lookupKey_eq_none_iff.mp hn p hp)

/-- C4: on a schema-bound space, reading or writing a name not declared in the
schema raises `NotAFieldException` carrying the list of valid field names,
while declared names never trigger that error on read (nor on write). -/
theorem schema_enforcement :
    ∀ (schema : List (String × PyVal)) (s : SimSpace) (key : String) (item : PyVal),
      (∀ p ∈ s.data, p.1 ∈ schemaNames schema) →
      ((key ∉ schemaNames schema →
          simGetItem schema s key = .error ⟨schemaNames schema, key⟩ ∧
          simSetItem schema s key item = .error ⟨schemaNames schema, key⟩) ∧
       (key ∈ schemaNames schema →
          (simGetItem schema s key).isOk = true ∧ (simSetItem schema s key item).isOk = true)) := by
  intro schema s key item hdata
  constructor
  · intro hk
    have hd : lookupKey s.data key = none :=
      lookupKey_eq_none_iff.mpr (fun p hp hpk => hk (hpk ▸ hdata p hp))
    have hs : lookupKey schema key = none :=
      lookupKey_eq_none_iff.mpr
        (fun p hp hpk => hk (hpk ▸ List.mem_map_of_mem Prod.fst hp))
    constructor
    · simp [simGetItem, hd, simMissing, hs, schemaNames]
    · simp [simSetItem, List.elem_eq_mem, hk]
  · intro hk
    constructor
    · unfold simGetItem
      cases hd : lookupKey s.data key with
      | some v => simp [Except.isOk, Except.toBool]
      | none =>
        unfold simMissing
        cases hs : lookupKey schema key with
        | some v => simp [Except.isOk, Except.toBool]
        | none =>
          exfalso
          have hsome := lookupKey_isSome_of_mem_names (l := schema) (k := key) hk
          rw [hs] at hsome
          simp at hsome
    · simp [simSetItem, List.elem_eq_mem, hk, Except.isOk, Except.toBool]

/-- C4 witness: with schema fields x and y, reading and writing z raise the
error carrying the valid names, and reading the declared y succeeds. -/
theorem schema_enforcement_witness :
    simGetItem [("x", PyVal.num 0), ("y", PyVal.num 0)] ⟨[("x", PyVal.num 1)]⟩ "z" =
      .error ⟨["x", "y"], "z"⟩ ∧
    simSetItem [("x", PyVal.num 0), ("y", PyVal.num 0)] ⟨[("x", PyVal.num 1)]⟩ "z"
        (PyVal.num 1) = .error ⟨["x", "y"], "z"⟩ ∧
    (simGetItem [("x", PyVal.num 0), ("y", PyVal.num 0)] ⟨[("x", PyVal.num 1)]⟩ "y").isOk =
      true := by
  have h := schema_enforcement [("x", PyVal.num 0), ("y", PyVal.num 0)]
    ⟨[("x", PyVal.num 1)]⟩ "z" (PyVal.num 1) (by decide)
  have h2 := schema_enforcement [("x", PyVal.num 0), ("y", PyVal.num 0)]
    ⟨[("x", PyVal.num 1)]⟩ "y" (PyVal.num 1) (by decide)
  exact ⟨(h.1 (by decide)).1, (h.1 (by decide)).2, (h2.2 (by decide)).1⟩

/-- C3 counterexample: a `SimObservation` write to a field that is declared in
the observation schema succeeds (the value is stored), so writes after
construction do not fail unconditionally. -/
theorem observation_write_counterexample :
    simSetItem [("a", PyVal.num 0)] ⟨[("a", PyVal.num 1)]⟩ "a" (PyVal.num 2) =
      .ok ⟨[("a", PyVal.num 2)]⟩ := rfl

/-- C3 amended: the attribute-style `Observation` (alpyne/spaces.py) rejects
every post-construction write with an immutable-object error, but the
dict-style `SimObservation` (alpyne/data.py) accepts writes to
schema-declared names and rejects only names outside the schema. -/
theorem observation_immutability_amended :
    (∀ (s : ObsState) (key : String) (value : PyVal), s.initializing = false →
       Observation.setattr s key value = .error .attributeError) ∧
    (∀ kwargs, (Observation.construct kwargs).initializing = false) ∧
    (∀ (schema : List (String × PyVal)) (s : SimSpace) (key : String) (item : PyVal),
       key ∈ schemaNames schema →
       simSetItem schema s key item = .ok ⟨setKey s.data key item⟩) ∧
    (∀ (schema : List (String × PyVal)) (s : SimSpace) (key : String) (item : PyVal),
       key ∉ schemaNames schema →
       simSetItem schema s key item = .error ⟨schemaNames schema, key⟩) := by
  refine ⟨?_, ?_, ?_, ?_⟩
  · intro s key value h
    simp [Observation.setattr, h]
  · intro kwargs
    rfl
  · intro schema s key item h
    simp [simSetItem, List.elem_eq_mem, h]
  · intro schema s key item h
    simp [simSetItem, List.elem_eq_mem, h]

/-- C3 witness: after construction every attribute write on an `Observation`
raises, and a dict-style write to an undeclared name raises the schema error. -/
theorem observation_immutability_amended_witness :
    Observation.setattr ⟨false, [("a", PyVal.num 1)]⟩ "a" (PyVal.num 2) =
      .error .attributeError ∧
    (Observation.construct [("a", PyVal.num 1)]).initializing = false ∧
    simSetItem [("a", PyVal.num 0)] ⟨[]⟩ "z" (PyVal.num 2) = .error ⟨["a"], "z"⟩ := by
  refine ⟨?_, ?_, ?_⟩
  · exact observation_immutability_amended.1 ⟨false, [("a", PyVal.num 1)]⟩ "a"
      (PyVal.num 2) rfl
  · exact observation_immutability_amended.2.1 [("a", PyVal.num 1)]
  · exact observation_immutability_amended.2.2.2 [("a", PyVal.num 0)] ⟨[]⟩ "z"
      (PyVal.num 2) (by decide)

theorem materializeRange_15_2 : materializeRange 1 5 2 = [1, 3] := by
  have h : ((⌈(((5 : ℚ)) - 1) / 2⌉).natAbs) = 2 := by norm_num
  simp [materializeRange, h, List.range_succ]
  norm_num

theorem nthRead_eq (vs : List ℚ) (p k : ℕ) :
    RangedCursor.nthRead ⟨vs, p⟩ k = vs[(p + k) % vs.length]? := by
  induction k generalizing p with
  | zero =>
    unfold RangedCursor.nthRead RangedCursor.read
    cases h : vs[p % vs.length]? with
    | some v => simp [h]
    | none => simp [h]
  | succ k ih =>
    unfold RangedCursor.nthRead RangedCursor.read
    cases h : vs[p % vs.length]? with
    | some v =>
      simp only [h]
      rw [ih (p + 1)]
      congr 2
      omega
    | none =>
      have hnil : vs = [] := by
        cases vs with
        | nil => rfl
        | cons a t =>
          exfalso
          have hlt : p % (a :: t).length < (a :: t).length :=
            Nat.mod_lt _ (by simp)
          rw [List.getElem?_eq_none_iff] at h
          omega
      subst hnil
      simp [h]

/-- C1 counterexample: for a field assigned (1, 5, 2), the third read returns
1 again, not 5 — the materialized sequence is [1, 3] and never contains the
stop value 5, contradicting the claimed reads 1, 3, 5, 1, 3, 5, ... -/
theorem ranged_cursor_counterexample :
    rangeRead 1 5 2 2 = some 1 ∧ (5 : ℚ) ∉ materializeRange 1 5 2 := by
  constructor
  · simp [rangeRead, materializeRange_15_2]
  · rw [materializeRange_15_2]
    norm_num

/-- C1 amended: assigning a (start, stop[, step]) tuple materializes the
stepped sequence of `abs(ceil((stop - start) / step))` terms
`start + i * step` (the stop bound itself is excluded when `stop - start` is
a multiple of `step`), wrapped in a repeating cursor; each read advances the
cursor by one and the sequence wraps around after exhaustion, so reads of a
field assigned (1, 5, 2) return 1, 3, 1, 3, ... -/
theorem ranged_cursor_amended :
    (∀ start stop step : ℚ,
       (materializeRange start stop step).length = (⌈(stop - start) / step⌉).natAbs) ∧
    (∀ (start stop step : ℚ) (i : ℕ), i < (⌈(stop - start) / step⌉).natAbs →
       (materializeRange start stop step)[i]? = some (start + (i : ℚ) * step)) ∧
    (∀ (start stop step : ℚ) (k : ℕ),
       (assignTuple start stop step).nthRead k = rangeRead start stop step k) ∧
    (∀ (start stop step : ℚ) (k : ℕ),
       rangeRead start stop step (k + (materializeRange start stop step).length) =
         rangeRead start stop step k) ∧
    (∀ k : ℕ, rangeRead 1 5 2 k = some (if k % 2 = 0 then 1 else 3)) := by
  refine ⟨?_, ?_, ?_, ?_, ?_⟩
  · intro start stop step
    simp only [materializeRange, List.length_map, List.length_range]
  · intro start stop step i h
    simp only [materializeRange, List.getElem?_map, List.getElem?_range h, Option.map_some']
  · intro start stop step k
    have h := nthRead_eq (materializeRange start stop step) 0 k
    simpa [assignTuple, rangeRead] using h
  · intro start stop step k
    simp [rangeRead, Nat.add_mod_right]
  · intro k
    rcases Nat.mod_two_eq_zero_or_one k with h | h <;>
      simp [rangeRead, materializeRange_15_2, h]

/-- C1 amended witness: the second materialized term of (1, 5, 2) is
1 + 1*2 = 3, and reads of that field wrap with period 2. -/
theorem ranged_cursor_amended_witness :
    (materializeRange 1 5 2)[1]? = some (1 + ((1 : ℕ) : ℚ) * 2) ∧
    rangeRead 1 5 2 (0 + (materializeRange 1 5 2).length) = rangeRead 1 5 2 0 := by
  constructor
  · exact ranged_cursor_amended.2.1 1 5 2 1 (by norm_num)
  · exact ranged_cursor_amended.2.2.2.1 1 5 2 0

/-- C8 counterexample: a JSON object with the keys name/type/value plus an
unexpected extra key is fed to the FieldData constructor and raises
TypeError; it does not decode as a plain mapping as the claim states. -/
theorem decoder_exact_keys_counterexample :
    decode (.obj [("name", .str "x"), ("type", .str "INTEGER"), ("value", .num 1),
        ("extra", .num 2)]) = .error .typeError ∧
    decode (.obj [("name", .str "x"), ("type", .str "INTEGER"), ("value", .num 1),
        ("extra", .num 2)]) ≠
      .ok (.plain (.obj [("name", .str "x"), ("type", .str "INTEGER"), ("value", .num 1),
        ("extra", .num 2)])) := by
  refine ⟨rfl, ?_⟩
  intro h
  rw [show decode (.obj [("name", .str "x"), ("type", .str "INTEGER"), ("value", .num 1),
      ("extra", .num 2)]) = Except.error PyErr.typeError from rfl] at h
  exact Except.noConfusion h

/-- C8 amended: recognition is by key containment, not key exactness.  A
top-level object containing the keys name, type and value becomes a FieldData
(units defaulting to null) when all its keys are among those four; with any
additional key the decode raises TypeError; objects lacking one of the three
keys, and all non-objects, decode as plain values. -/
theorem decoder_containment_amended :
    (∀ j : PyVal, (∀ fields, j ≠ .obj fields) → decode j = .ok (.plain j)) ∧
    (∀ fields, hasNTV fields = false → decode (.obj fields) = .ok (.plain (.obj fields))) ∧
    (∀ fields, hasNTV fields = true → onlyFDKeys fields = false →
       decode (.obj fields) = .error .typeError) ∧
    (∀ fields, hasNTV fields = true → onlyFDKeys fields = true →
       ∃ n t v, lookupKey fields "name" = some n ∧ lookupKey fields "type" = some t ∧
         lookupKey fields "value" = some v ∧
         decode (.obj fields) =
           .ok (.fieldData ⟨n, t, v, (lookupKey fields "units").getD .null⟩)) := by
  refine ⟨?_, ?_, ?_, ?_⟩
  · intro j hj
    cases j with
    | obj fields => exact absurd rfl (hj fields)
    | null => rfl
    | bool b => rfl
    | num q => rfl
    | str s => rfl
    | arr xs => rfl
  · intro fields h
    simp [decode, h]
  · intro fields h1 h2
    simp [decode, h1, mkFieldDataFromObj, h2, Except.map]
  · intro fields h1 h2
    have h1' := h1
    simp only [hasNTV, List.all_cons, List.all_nil, Bool.and_true, Bool.and_eq_true] at h1'
    obtain ⟨hn, ht, hv⟩ := h1'
    simp only [List.elem_eq_mem, decide_eq_true_eq] at hn ht hv
    obtain ⟨n, hn'⟩ := Option.isSome_iff_exists.mp (lookupKey_isSome_of_mem_names hn)
    obtain ⟨t, ht'⟩ := Option.isSome_iff_exists.mp (lookupKey_isSome_of_mem_names ht)
    obtain ⟨v, hv'⟩ := Option.isSome_iff_exists.mp (lookupKey_isSome_of_mem_names hv)
    refine ⟨n, t, v, hn', ht', hv', ?_⟩
    simp [decode, h1, mkFieldDataFromObj, h2, hn', ht', hv', Except.map]

/-- C8 amended witness: an object lacking the three keys and a bare array both
decode as plain values. -/
theorem decoder_containment_amended_witness :
    decode (.obj [("a", PyVal.num 1)]) = .ok (.plain (.obj [("a", PyVal.num 1)])) ∧
    decode (.arr []) = .ok (.plain (.arr [])) := by
  constructor
  · exact decoder_containment_amended.2.1 [("a", PyVal.num 1)] rfl
  · exact decoder_containment_amended.1 (.arr []) (fun fields h => PyVal.noConfusion h)

end Alpyne
